import Mathlib

/-!
Shallow embedding of the slicing/trimming engine of
`helixerprep/datas/annotations/slicer.py`: the feature-vs-window position
classifier (`FeatureVsCoords`), the border splitter
(`TranscriptTrimmer.set_status_downstream_border`), the 5'-to-3' walk
(`TranscriptTrimmer.modify4new_slice`), the lazily created downstream piece
(`TranscriptTrimmer.downstream_piece` / `mk_new_piece`), the spatial index
(`load_to_intervaltree` / `SliceController.get_features_from_slice`) and the
`NoFeaturesInSliceError` recovery re-check in
`SuperLocusHandler.modify4slice`.
Positions are modelled as `Int` (python integers), fallible code as `Except`.
-/

/-- `geenuff.orm.Coordinate`: one slice window `{id, seqid, start, end}`. -/
structure Coordinate where
  id : Nat
  seqid : String
  start : Int
  end_ : Int
deriving DecidableEq, Repr

/-- `geenuff.orm.TranscribedPiece`: id plus owning Transcribed (by id). -/
structure TranscribedPiece where
  id : Nat
  transcribed : Nat
deriving DecidableEq, Repr

/-- `geenuff.orm.Feature` as used by slicer.py: range (`start`/`end`) for the
classifier, point `position` for the interval tree and the re-check, strand,
owning coordinate, biological flags, and piece links (`transcribed_piece` the
single link read in `modify4new_slice`, `pieces` the `transcribed_pieces`
collection checked by the assert in `set_status_downstream_border`). -/
structure Feature where
  id : Nat
  start : Int
  end_ : Int
  position : Int
  is_plus_strand : Bool
  coordinate : Coordinate
  start_is_biological_start : Bool
  end_is_biological_end : Bool
  given_id : Option String
  transcribed_piece : Nat
  pieces : List Nat
deriving DecidableEq, Repr

/-- The interval trees: seqid -> list of (key position, stored feature);
each entry stands for the degenerate interval [position, position+1). -/
abbrev Trees := List (String × List (Int × Feature))

/-- Dictionary lookup `self.interval_trees[seqid]` (KeyError as `none`). -/
def lookupTree (seqid : String) : Trees → Option (List (Int × Feature))
  | [] => none
  | (k, v) :: rest => if k = seqid then some v else lookupTree seqid rest

/-- `load_to_intervaltree(obj, trees)`: create the seqid bucket if missing,
then `tree[py_start:py_start+1] = obj` with `py_start = obj.data.position`. -/
def load_to_intervaltree (f : Feature) : Trees → Trees
  | [] => [(f.coordinate.seqid, [(f.position, f)])]
  | (k, v) :: rest =>
      if k = f.coordinate.seqid then (k, (f.position, f) :: v) :: rest
      else (k, v) :: load_to_intervaltree f rest

/-- Membership of an entry in the bucket of a seqid. -/
def trees_mem (trees : Trees) (seqid : String) (e : Int × Feature) : Bool :=
  match lookupTree seqid trees with
  | some l => decide (e ∈ l)
  | none => false

/-- The `FeatureVsCoords` object: a feature positioned against a slice
window under a strand flag. -/
structure FeatureVsCoords where
  feature : Feature
  slice_coordinates : Coordinate
  is_plus_strand : Bool
deriving DecidableEq, Repr

namespace FeatureVsCoords

/-- Strand-effective start (`self.feature_py_start` from `__init__`). -/
def feature_py_start (p : FeatureVsCoords) : Int :=
  if p.is_plus_strand then p.feature.start else p.feature.end_ + 1

/-- Strand-effective end (`self.feature_py_end` from `__init__`). -/
def feature_py_end (p : FeatureVsCoords) : Int :=
  if p.is_plus_strand then p.feature.end_ else p.feature.start + 1

/-- `is_detached`: different seqid or different strand. -/
def is_detached (p : FeatureVsCoords) : Bool :=
  decide (p.slice_coordinates.seqid ≠ p.feature.coordinate.seqid)
    || (p.is_plus_strand != p.feature.is_plus_strand)

/-- `_is_lower`: `slice.start - feature_py_end >= 0`. -/
def is_lower (p : FeatureVsCoords) : Bool :=
  decide (p.slice_coordinates.start - p.feature_py_end ≥ 0)

/-- `_is_higher`: `feature_py_start - slice.end >= 0`. -/
def is_higher (p : FeatureVsCoords) : Bool :=
  decide (p.feature_py_start - p.slice_coordinates.end_ ≥ 0)

/-- `is_upstream`. -/
def is_upstream (p : FeatureVsCoords) : Bool :=
  if p.is_plus_strand then p.is_lower else p.is_higher

/-- `is_downstream`. -/
def is_downstream (p : FeatureVsCoords) : Bool :=
  if p.is_plus_strand then p.is_higher else p.is_lower

/-- `is_contained`: start and end both inside the window. -/
def is_contained (p : FeatureVsCoords) : Bool :=
  decide (p.slice_coordinates.start ≤ p.feature_py_start
            ∧ p.feature_py_start < p.slice_coordinates.end_)
    && decide (p.slice_coordinates.start < p.feature_py_end
            ∧ p.feature_py_end ≤ p.slice_coordinates.end_)

/-- `_overlaps_lower`: `feature_py_start < slice.start < feature_py_end`. -/
def overlaps_lower (p : FeatureVsCoords) : Bool :=
  decide (p.feature_py_start < p.slice_coordinates.start
            ∧ p.slice_coordinates.start < p.feature_py_end)

/-- `_overlaps_higher`: `feature_py_start < slice.end < feature_py_end`. -/
def overlaps_higher (p : FeatureVsCoords) : Bool :=
  decide (p.feature_py_start < p.slice_coordinates.end_
            ∧ p.slice_coordinates.end_ < p.feature_py_end)

/-- `overlaps_upstream`. -/
def overlaps_upstream (p : FeatureVsCoords) : Bool :=
  if p.is_plus_strand then p.overlaps_lower else p.overlaps_higher

/-- `overlaps_downstream`. -/
def overlaps_downstream (p : FeatureVsCoords) : Bool :=
  if p.is_plus_strand then p.overlaps_higher else p.overlaps_lower

end FeatureVsCoords

/-- The six classifier categories. -/
inductive Category where
  | Detached
  | Upstream
  | OverlapsUpstream
  | Contained
  | OverlapsDownstream
  | Downstream
deriving DecidableEq, Repr

/-- The if/elif chain of `modify4new_slice` (lines 397-435): first matching
predicate wins; `none` stands for falling through to the catch-all
`raise AssertionError`. -/
def classify (p : FeatureVsCoords) : Option Category :=
  if p.is_detached then some Category.Detached
  else if p.is_upstream then some Category.Upstream
  else if p.overlaps_upstream then some Category.OverlapsUpstream
  else if p.is_contained then some Category.Contained
  else if p.overlaps_downstream then some Category.OverlapsDownstream
  else if p.is_downstream then some Category.Downstream
  else none

/-- The chain always finds a matching category: the catch-all is dead code. -/
theorem classify_total (p : FeatureVsCoords) : (classify p).isSome = true := by
  unfold classify
  by_cases hd : p.is_detached = true
  · simp [hd]
  · simp only [hd]
    by_cases hu : p.is_upstream = true
    · simp [hu]
    · simp only [hu]
      by_cases hou : p.overlaps_upstream = true
      · simp [hou]
      · simp only [hou]
        by_cases hc : p.is_contained = true
        · simp [hc]
        · simp only [hc]
          by_cases hod : p.overlaps_downstream = true
          · simp [hod]
          · simp only [hod]
            by_cases hdn : p.is_downstream = true
            · simp [hdn]
            · exfalso
              simp only [FeatureVsCoords.is_upstream, FeatureVsCoords.is_downstream,
                FeatureVsCoords.overlaps_upstream, FeatureVsCoords.overlaps_downstream,
                FeatureVsCoords.is_lower, FeatureVsCoords.is_higher,
                FeatureVsCoords.overlaps_lower, FeatureVsCoords.overlaps_higher,
                FeatureVsCoords.is_contained] at hu hou hod hdn hc
              rcases hb : p.is_plus_strand with _ | _ <;>
                simp only [hb, if_true, if_false, Bool.false_eq_true, decide_eq_true_eq,
                  Bool.and_eq_true, not_and, not_lt, not_le, Bool.not_eq_true,
                  decide_eq_false_iff_not] at hu hou hod hdn hc <;>
                omega

/-- Exceptions crossing the boundaries modelled here: python's `ValueError`,
`IndexError`, `AssertionError` and slicer's `NoFeaturesInSliceError`. -/
inductive SliceError where
  | valueError
  | indexError
  | assertionError
  | noFeaturesInSlice
deriving DecidableEq, Repr

/-- One queued piece swap `{'piece_id_old':, 'piece_id_new':, 'feat_id':}`. -/
structure PieceSwap where
  piece_id_old : Nat
  piece_id_new : Nat
  feat_id : Nat
deriving DecidableEq, Repr

/-- One queued coordinate swap `{'feat_id':, 'coordinate_id_new':}`. -/
structure CoordSwap where
  feat_id : Nat
  coordinate_id_new : Nat
deriving DecidableEq, Repr

/-- `CoreQueue`: pending intents plus the log of already-executed ones. -/
structure CoreQueue where
  piece_swaps : List PieceSwap
  coord_swaps : List CoordSwap
  applied_piece_swaps : List PieceSwap
  applied_coord_swaps : List CoordSwap
deriving DecidableEq, Repr

/-- State threaded through one `TranscriptTrimmer.modify4new_slice` run. -/
structure ModState where
  seen_one_overlap : Bool
  piece_at_border : Option Nat
  queue : CoreQueue
  downstream_cache : Option TranscribedPiece
  next_piece_id : Nat
  created_pieces : List TranscribedPiece
  next_feat_id : Nat
  trees : Trees
  split_results : List (Feature × Feature)
deriving DecidableEq, Repr

/-- A fresh trimmer state (`TranscriptTrimmer.__init__` plus empty queue). -/
def ModState.init : ModState :=
  { seen_one_overlap := false, piece_at_border := none,
    queue := { piece_swaps := [], coord_swaps := [],
               applied_piece_swaps := [], applied_coord_swaps := [] },
    downstream_cache := none, next_piece_id := 1000, created_pieces := [],
    next_feat_id := 2000, trees := [], split_results := [] }

/-- `CoreQueue.execute_so_far`: apply all buffered intents, clear buffers. -/
def execute_so_far (st : ModState) : ModState :=
  { st with queue :=
      { piece_swaps := [], coord_swaps := [],
        applied_piece_swaps := st.queue.applied_piece_swaps ++ st.queue.piece_swaps,
        applied_coord_swaps := st.queue.applied_coord_swaps ++ st.queue.coord_swaps } }

/-- `TranscriptTrimmer.mk_new_piece`: a new `TranscribedPiece` owned by the
same Transcribed, recorded in the session (here `created_pieces`). -/
def mk_new_piece (transcribed : Nat) (st : ModState) : TranscribedPiece × ModState :=
  let p : TranscribedPiece := { id := st.next_piece_id, transcribed := transcribed }
  (p, { st with next_piece_id := st.next_piece_id + 1,
                created_pieces := st.created_pieces ++ [p] })

/-- The `downstream_piece` property: lazily create on first access, cache. -/
def downstream_piece (transcribed : Nat) (st : ModState) : TranscribedPiece × ModState :=
  match st.downstream_cache with
  | some p => (p, st)
  | none =>
      let q := mk_new_piece transcribed st
      (q.1, { q.2 with downstream_cache := some q.1 })

/-- `TranscriptTrimmer.set_status_downstream_border`: cut position, clone of
the template feature (via `fax_all_attrs_to_another` then the explicit
kwargs), the assert on `old_piece in template_feature.transcribed_pieces`,
insertion into the interval trees, in-place truncation of the template, and
`swap_piece` of the clone from `old_piece` to `new_piece` (`de_link` raises
`ValueError` when the old piece is not linked).  Returns the new downstream
feature, the mutated template and the updated trees.  The interval tree keeps
the live object, so the stored value is the clone's final state. -/
def set_status_downstream_border (new_coords old_coords : Coordinate)
    (is_plus_strand : Bool) (template_feature : Feature)
    (new_piece old_piece : TranscribedPiece) (trees : Trees) (fresh_id : Nat) :
    Except SliceError (Feature × Feature × Trees) :=
  let down_at : Int := if is_plus_strand then new_coords.end_ else new_coords.start - 1
  if old_piece.id ∈ template_feature.pieces then
    let downstream : Feature :=
      { template_feature with
        id := fresh_id,
        start := down_at,
        given_id := none,
        coordinate := old_coords,
        start_is_biological_start := false }
    if old_piece.id ∈ downstream.pieces then
      let downstream2 : Feature :=
        { downstream with
          pieces := downstream.pieces.erase old_piece.id ++ [new_piece.id],
          transcribed_piece := new_piece.id }
      let trees2 := load_to_intervaltree downstream2 trees
      let template2 : Feature :=
        { template_feature with end_ := down_at, end_is_biological_end := false }
      Except.ok (downstream2, template2, trees2)
    else Except.error SliceError.valueError
  else Except.error SliceError.assertionError

/-- The `for feature in aligned_features` loop of the `overlaps_downstream`
branch: split every aligned feature, threading trees and fresh ids. -/
def split_all (new_coords old_coords : Coordinate) (is_plus_strand : Bool)
    (new_piece old_piece : TranscribedPiece) :
    List Feature → Trees → Nat → Except SliceError (Trees × Nat × List (Feature × Feature))
  | [], trees, fid => Except.ok (trees, fid, [])
  | f :: rest, trees, fid =>
      match set_status_downstream_border new_coords old_coords is_plus_strand f
          new_piece old_piece trees fid with
      | Except.ok (down, tf2, trees2) =>
          match split_all new_coords old_coords is_plus_strand new_piece old_piece
              rest trees2 (fid + 1) with
          | Except.ok (t3, fid3, res) => Except.ok (t3, fid3, (down, tf2) :: res)
          | Except.error e => Except.error e
      | Except.error e => Except.error e

/-- One step of the walk: `(aligned_features, piece)` as yielded by
`transition_5p_to_3p`. -/
structure TransitionStep where
  aligned_features : List Feature
  piece : TranscribedPiece
deriving DecidableEq, Repr

/-- The classification the walk computes for a step: `FeatureVsCoords` on
`aligned_features[0]` (IndexError on an empty group modelled as `none`). -/
def step_class (new_coords : Coordinate) (is_plus_strand : Bool)
    (step : TransitionStep) : Option Category :=
  match step.aligned_features with
  | [] => none
  | f0 :: _ =>
      classify { feature := f0, slice_coordinates := new_coords,
                 is_plus_strand := is_plus_strand }

/-- The `overlaps_downstream` branch of the walk: remember the border piece
(`piece_at_border = f0.data.transcribed_piece`), fetch (lazily creating) the
downstream piece, flush the queue (`execute_so_far`), then split every
aligned feature via `set_status_downstream_border` with
`old_coords = f0.coordinates`. -/
def overlaps_downstream_branch (new_coords : Coordinate) (is_plus_strand : Bool)
    (transcribed : Nat) (f0 : Feature) (afs : List Feature) (st : ModState) :
    Except SliceError ModState :=
  let pab := f0.transcribed_piece
  let st1 := { st with seen_one_overlap := true, piece_at_border := some pab }
  let q := downstream_piece transcribed st1
  let st2 := execute_so_far q.2
  match split_all new_coords f0.coordinate is_plus_strand q.1
      { id := pab, transcribed := transcribed } afs st2.trees st2.next_feat_id with
  | Except.ok (t, fid, res) =>
      Except.ok { st2 with
        trees := t,
        next_feat_id := fid,
        split_results := st2.split_results ++ res }
  | Except.error e => Except.error e

/-- The body of the `for aligned_features, piece in transition_gen` loop of
`modify4new_slice`: classify `aligned_features[0]` and run the branch. -/
def modify_step (new_coords : Coordinate) (is_plus_strand : Bool)
    (transcribed : Nat) (step : TransitionStep) (st : ModState) :
    Except SliceError ModState :=
  match step.aligned_features with
  | [] => Except.error SliceError.indexError
  | f0 :: _ =>
      let p : FeatureVsCoords :=
        { feature := f0, slice_coordinates := new_coords,
          is_plus_strand := is_plus_strand }
      match classify p with
      | some Category.Detached => Except.ok st
      | some Category.Upstream => Except.ok st
      | some Category.OverlapsUpstream => Except.ok st
      | some Category.Contained =>
          Except.ok { st with
            seen_one_overlap := true,
            queue := { st.queue with coord_swaps :=
              (st.queue.coord_swaps ++ step.aligned_features.map (fun f =>
                { feat_id := f.id, coordinate_id_new := new_coords.id })) } }
      | some Category.OverlapsDownstream =>
          overlaps_downstream_branch new_coords is_plus_strand transcribed f0
            step.aligned_features st
      | some Category.Downstream =>
          match st.piece_at_border with
          | none => Except.ok st
          | some pab =>
              if step.piece.id = pab then
                let q := downstream_piece transcribed st
                Except.ok { q.2 with queue := { q.2.queue with
                  piece_swaps := q.2.queue.piece_swaps ++
                    step.aligned_features.map (fun f =>
                      { piece_id_old := pab, piece_id_new := q.1.id, feat_id := f.id }) } }
              else Except.ok st
      | none => Except.error SliceError.assertionError

/-- The walk itself, step by step, stopping at the first exception. -/
def run_steps (new_coords : Coordinate) (is_plus_strand : Bool)
    (transcribed : Nat) : List TransitionStep → ModState → Except SliceError ModState
  | [], st => Except.ok st
  | s :: rest, st =>
      match modify_step new_coords is_plus_strand transcribed s st with
      | Except.ok st2 => run_steps new_coords is_plus_strand transcribed rest st2
      | Except.error e => Except.error e

/-- `TranscriptTrimmer.modify4new_slice`: reset the locals, walk the chain,
then `raise NoFeaturesInSliceError` unless `seen_one_overlap`. -/
def modify4new_slice (new_coords : Coordinate) (is_plus_strand : Bool)
    (transcribed : Nat) (steps : List TransitionStep) (st : ModState) :
    Except SliceError ModState :=
  match run_steps new_coords is_plus_strand transcribed steps
      { st with seen_one_overlap := false, piece_at_border := none } with
  | Except.ok st1 =>
      if st1.seen_one_overlap then Except.ok st1
      else Except.error SliceError.noFeaturesInSlice
  | Except.error e => Except.error e

/-- `n` successive reads of the `downstream_piece` property. -/
def access_list (transcribed : Nat) : Nat → ModState → List TranscribedPiece × ModState
  | 0, st => ([], st)
  | n + 1, st =>
      let q := downstream_piece transcribed st
      let r := access_list transcribed n q.2
      (q.1 :: r.1, r.2)

/-- `SliceController.get_features_from_slice`: `ValueError` on a completely
empty index, `[]` on a missing seqid, otherwise the intervaltree slice query
`tree[start:end]` (entries `[p, p+1)` with `p < end` and `p + 1 > start`)
filtered to the requested strand. -/
def get_features_from_slice (trees : Trees) (seqid : String)
    (start end_ : Int) (is_plus_strand : Bool) : Except SliceError (List Feature) :=
  if trees = [] then Except.error SliceError.valueError
  else
    match lookupTree seqid trees with
    | none => Except.ok []
    | some tree =>
        Except.ok ((tree.filter (fun e =>
            decide (e.1 < end_) && decide (start < e.1 + 1)
              && (e.2.is_plus_strand == is_plus_strand))).map (fun e => e.2))

/-- The `except NoFeaturesInSliceError` re-check in
`SuperLocusHandler.modify4slice`: walk every feature of every piece of the
transcript; on the matching strand assert the position is outside
`[start, end]` (plus) resp. `[start - 1, end - 1]` (minus).  Returns `true`
when every assert passes (the error resolves without aborting). -/
def reverify_no_overlap (piece_features : List (List Feature))
    (new_coords : Coordinate) (is_plus_strand : Bool) : Bool :=
  piece_features.all (fun fs => fs.all (fun f =>
    if is_plus_strand == f.is_plus_strand then
      if is_plus_strand then
        ! decide (new_coords.start ≤ f.position ∧ f.position ≤ new_coords.end_)
      else
        ! decide (new_coords.start - 1 ≤ f.position ∧ f.position ≤ new_coords.end_ - 1)
    else true))

/-- `isOk` test on the result of a walk. -/
def isOkE (r : Except SliceError ModState) : Bool :=
  match r with
  | Except.ok _ => true
  | Except.error _ => false

/-- Number of border splits performed by a walk (0 on error). -/
def splitCount (r : Except SliceError ModState) : Nat :=
  match r with
  | Except.ok st => st.split_results.length
  | Except.error _ => 0

/-- Number of pieces created by a walk (0 on error). -/
def createdCount (r : Except SliceError ModState) : Nat :=
  match r with
  | Except.ok st => st.created_pieces.length
  | Except.error _ => 0

/-- The walk invariant the transition generator guarantees for a step: every
aligned feature is linked (via `transcribed_pieces`) to the piece that
`aligned_features[0].transcribed_piece` names. -/
def step_pieces_linked (s : TransitionStep) : Bool :=
  match s.aligned_features with
  | [] => true
  | f0 :: _ => s.aligned_features.all (fun f => decide (f0.transcribed_piece ∈ f.pieces))

/-! ### Helper lemmas (shared) -/

theorem downstream_piece_of_cached (transcribed : Nat) (st : ModState)
    (p : TranscribedPiece) (h : st.downstream_cache = some p) :
    downstream_piece transcribed st = (p, st) := by
  simp [downstream_piece, h]

theorem downstream_piece_fresh (transcribed : Nat) (st : ModState)
    (h : st.downstream_cache = none) :
    (downstream_piece transcribed st).1.transcribed = transcribed
    ∧ (downstream_piece transcribed st).2.created_pieces
        = st.created_pieces ++ [(downstream_piece transcribed st).1]
    ∧ (downstream_piece transcribed st).2.downstream_cache
        = some (downstream_piece transcribed st).1 := by
  simp [downstream_piece, h, mk_new_piece]

theorem downstream_piece_seen (transcribed : Nat) (st : ModState) :
    (downstream_piece transcribed st).2.seen_one_overlap = st.seen_one_overlap := by
  cases h : st.downstream_cache <;> simp [downstream_piece, h, mk_new_piece]

theorem execute_so_far_seen (st : ModState) :
    (execute_so_far st).seen_one_overlap = st.seen_one_overlap := rfl

theorem mem_load_to_intervaltree (f : Feature) (trees : Trees) :
    trees_mem (load_to_intervaltree f trees) f.coordinate.seqid (f.position, f) = true := by
  induction trees with
  | nil => simp [load_to_intervaltree, trees_mem, lookupTree]
  | cons hd tl ih =>
      obtain ⟨k, v⟩ := hd
      by_cases hk : k = f.coordinate.seqid
      · simp [load_to_intervaltree, hk, trees_mem, lookupTree]
      · simpa [load_to_intervaltree, hk, trees_mem, lookupTree] using ih

theorem set_status_ok_of_mem (new_coords old_coords : Coordinate) (b : Bool)
    (tf : Feature) (np op : TranscribedPiece) (trees : Trees) (fid : Nat)
    (h : op.id ∈ tf.pieces) :
    ∃ out, set_status_downstream_border new_coords old_coords b tf np op trees fid
      = Except.ok out := by
  simp [set_status_downstream_border, h]

theorem set_status_error_ne (new_coords old_coords : Coordinate) (b : Bool)
    (tf : Feature) (np op : TranscribedPiece) (trees : Trees) (fid : Nat)
    (e : SliceError)
    (h : set_status_downstream_border new_coords old_coords b tf np op trees fid
      = Except.error e) :
    e ≠ SliceError.noFeaturesInSlice := by
  by_cases hm : op.id ∈ tf.pieces <;> simp [set_status_downstream_border, hm] at h
  subst h
  simp

theorem split_all_ok (new_coords old_coords : Coordinate) (b : Bool)
    (np op : TranscribedPiece) :
    ∀ (fs : List Feature) (trees : Trees) (fid : Nat),
      (∀ f ∈ fs, op.id ∈ f.pieces) →
      ∃ out, split_all new_coords old_coords b np op fs trees fid = Except.ok out := by
  intro fs
  induction fs with
  | nil => exact fun trees fid _ => ⟨(trees, fid, []), rfl⟩
  | cons f rest ih =>
      intro trees fid h
      obtain ⟨⟨down, tf2, trees2⟩, h1⟩ :=
        set_status_ok_of_mem new_coords old_coords b f np op trees fid
          (h f (List.mem_cons_self f rest))
      obtain ⟨⟨t3, fid3, res⟩, h2⟩ :=
        ih trees2 (fid + 1) (fun g hg => h g (List.mem_cons_of_mem f hg))
      exact ⟨(t3, fid3, (down, tf2) :: res), by simp [split_all, h1, h2]⟩

theorem split_all_error_ne (new_coords old_coords : Coordinate) (b : Bool)
    (np op : TranscribedPiece) :
    ∀ (fs : List Feature) (trees : Trees) (fid : Nat) (e : SliceError),
      split_all new_coords old_coords b np op fs trees fid = Except.error e →
      e ≠ SliceError.noFeaturesInSlice := by
  intro fs
  induction fs with
  | nil => intro trees fid e h; simp [split_all] at h
  | cons f rest ih =>
      intro trees fid e h
      cases h1 : set_status_downstream_border new_coords old_coords b f np op trees fid with
      | error e2 =>
          simp [split_all, h1] at h
          exact h ▸ set_status_error_ne new_coords old_coords b f np op trees fid e2 h1
      | ok out =>
          obtain ⟨down, tf2, trees2⟩ := out
          cases h2 : split_all new_coords old_coords b np op rest trees2 (fid + 1) with
          | error e3 =>
              simp [split_all, h1, h2] at h
              exact h ▸ ih trees2 (fid + 1) e3 h2
          | ok out2 =>
              obtain ⟨t3, fid3, res⟩ := out2
              simp [split_all, h1, h2] at h

theorem overlaps_branch_ok_seen (new_coords : Coordinate) (b : Bool)
    (transcribed : Nat) (f0 : Feature) (afs : List Feature) (st st' : ModState)
    (h : overlaps_downstream_branch new_coords b transcribed f0 afs st
      = Except.ok st') :
    st'.seen_one_overlap = true := by
  simp only [overlaps_downstream_branch] at h
  split at h
  · cases h
    simp [execute_so_far, downstream_piece_seen]
  · cases h

theorem overlaps_branch_error_ne (new_coords : Coordinate) (b : Bool)
    (transcribed : Nat) (f0 : Feature) (afs : List Feature) (st : ModState)
    (e : SliceError)
    (h : overlaps_downstream_branch new_coords b transcribed f0 afs st
      = Except.error e) :
    e ≠ SliceError.noFeaturesInSlice := by
  simp only [overlaps_downstream_branch] at h
  split at h
  · cases h
  · cases h
    rename_i heq
    exact split_all_error_ne _ _ _ _ _ _ _ _ _ heq

theorem overlaps_branch_ok_of_linked (new_coords : Coordinate) (b : Bool)
    (transcribed : Nat) (f0 : Feature) (afs : List Feature) (st : ModState)
    (h : ∀ f ∈ afs, f0.transcribed_piece ∈ f.pieces) :
    ∃ st', overlaps_downstream_branch new_coords b transcribed f0 afs st
      = Except.ok st' := by
  simp only [overlaps_downstream_branch]
  set st1 : ModState := { st with seen_one_overlap := true, piece_at_border := some f0.transcribed_piece } with hst1
  set q := downstream_piece transcribed st1 with hq
  set st2 := execute_so_far q.2 with hst2
  obtain ⟨⟨t3, fid3, res⟩, hsp⟩ := split_all_ok new_coords f0.coordinate b q.1 { id := f0.transcribed_piece, transcribed := transcribed } afs st2.trees st2.next_feat_id h
  rw [hsp]
  exact ⟨_, rfl⟩

theorem modify_step_ok_seen (nc : Coordinate) (b : Bool) (trc : Nat)
    (s : TransitionStep) (st st' : ModState)
    (h : modify_step nc b trc s st = Except.ok st') :
    (st'.seen_one_overlap = true ↔
      (st.seen_one_overlap = true
        ∨ step_class nc b s = some Category.Contained
        ∨ step_class nc b s = some Category.OverlapsDownstream)) := by
  cases hs : s.aligned_features with
  | nil => simp [modify_step, hs] at h
  | cons f0 rest =>
      simp only [modify_step, hs] at h
      simp only [step_class, hs]
      cases hc : classify { feature := f0, slice_coordinates := nc, is_plus_strand := b } with
      | none => simp [hc] at h
      | some cat =>
          cases cat
          case Detached => simp [hc] at h; subst h; simp
          case Upstream => simp [hc] at h; subst h; simp
          case OverlapsUpstream => simp [hc] at h; subst h; simp
          case Contained => simp [hc] at h; subst h; simp
          case OverlapsDownstream =>
              simp only [hc] at h
              have hseen := overlaps_branch_ok_seen nc b trc f0 (f0 :: rest) st st' h
              simp [hseen]
          case Downstream =>
              simp only [hc] at h
              cases hp : st.piece_at_border with
              | none => simp [hp] at h; subst h; simp
              | some pab =>
                  simp only [hp] at h
                  by_cases hid : s.piece.id = pab
                  · simp [hid] at h
                    subst h
                    simp [downstream_piece_seen]
                  · simp [hid] at h
                    subst h
                    simp

theorem modify_step_error (nc : Coordinate) (b : Bool) (trc : Nat)
    (s : TransitionStep) (st : ModState) (e : SliceError)
    (hne : s.aligned_features ≠ [])
    (h : modify_step nc b trc s st = Except.error e) :
    e ≠ SliceError.noFeaturesInSlice
    ∧ step_class nc b s = some Category.OverlapsDownstream := by
  cases hs : s.aligned_features with
  | nil => exact absurd hs hne
  | cons f0 rest =>
      simp only [modify_step, hs] at h
      simp only [step_class, hs]
      cases hc : classify { feature := f0, slice_coordinates := nc, is_plus_strand := b } with
      | none =>
          have ht := classify_total { feature := f0, slice_coordinates := nc, is_plus_strand := b }
          rw [hc] at ht
          simp at ht
      | some cat =>
          cases cat
          case Detached => simp [hc] at h
          case Upstream => simp [hc] at h
          case OverlapsUpstream => simp [hc] at h
          case Contained => simp [hc] at h
          case OverlapsDownstream =>
              simp only [hc] at h
              exact ⟨overlaps_branch_error_ne nc b trc f0 (f0 :: rest) st e h, rfl⟩
          case Downstream =>
              simp only [hc] at h
              cases hp : st.piece_at_border with
              | none => simp [hp] at h
              | some pab =>
                  simp only [hp] at h
                  by_cases hid : s.piece.id = pab <;> simp [hid] at h

theorem except_ok_of_isOkE (r : Except SliceError ModState)
    (h : isOkE r = true) : ∃ st', r = Except.ok st' := by
  cases r with
  | ok st' => exact ⟨st', rfl⟩
  | error e => simp [isOkE] at h

theorem modify_step_ok_of_linked (nc : Coordinate) (b : Bool) (trc : Nat)
    (s : TransitionStep) (st : ModState)
    (hne : s.aligned_features ≠ [])
    (hlink : step_pieces_linked s = true) :
    ∃ st', modify_step nc b trc s st = Except.ok st' := by
  cases hs : s.aligned_features with
  | nil => exact absurd hs hne
  | cons f0 rest =>
      simp only [modify_step, hs]
      cases hc : classify { feature := f0, slice_coordinates := nc, is_plus_strand := b } with
      | none =>
          have ht := classify_total { feature := f0, slice_coordinates := nc, is_plus_strand := b }
          rw [hc] at ht
          simp at ht
      | some cat =>
          cases cat
          case Detached => exact ⟨st, rfl⟩
          case Upstream => exact ⟨st, rfl⟩
          case OverlapsUpstream => exact ⟨st, rfl⟩
          case Contained => exact ⟨_, rfl⟩
          case OverlapsDownstream =>
              have hl : ∀ f ∈ f0 :: rest, f0.transcribed_piece ∈ f.pieces := by
                simpa [step_pieces_linked, hs, List.all_eq_true] using hlink
              exact overlaps_branch_ok_of_linked nc b trc f0 (f0 :: rest) st hl
          case Downstream =>
              apply except_ok_of_isOkE
              cases hp : st.piece_at_border with
              | none => simp [hp, isOkE]
              | some pab =>
                  by_cases hid : s.piece.id = pab <;> simp [hp, hid, isOkE]

theorem run_steps_ok_seen (nc : Coordinate) (b : Bool) (trc : Nat) :
    ∀ (steps : List TransitionStep) (st st' : ModState),
      run_steps nc b trc steps st = Except.ok st' →
      (st'.seen_one_overlap = true ↔
        (st.seen_one_overlap = true ∨ ∃ s ∈ steps,
          (step_class nc b s = some Category.Contained
            ∨ step_class nc b s = some Category.OverlapsDownstream))) := by
  intro steps
  induction steps with
  | nil =>
      intro st st' h
      simp only [run_steps, Except.ok.injEq] at h
      subst h
      simp
  | cons s rest ih =>
      intro st st' h
      simp only [run_steps] at h
      cases hm : modify_step nc b trc s st with
      | error e => rw [hm] at h; cases h
      | ok st2 =>
          rw [hm] at h
          rw [ih st2 st' h, modify_step_ok_seen nc b trc s st st2 hm]
          simp only [List.mem_cons]
          constructor
          · rintro ((h1 | h1 | h1) | ⟨x, hx, h2⟩)
            · exact Or.inl h1
            · exact Or.inr ⟨s, Or.inl rfl, Or.inl h1⟩
            · exact Or.inr ⟨s, Or.inl rfl, Or.inr h1⟩
            · exact Or.inr ⟨x, Or.inr hx, h2⟩
          · rintro (h1 | ⟨x, (rfl | hx), h2⟩)
            · exact Or.inl (Or.inl h1)
            · rcases h2 with h2 | h2
              · exact Or.inl (Or.inr (Or.inl h2))
              · exact Or.inl (Or.inr (Or.inr h2))
            · exact Or.inr ⟨x, hx, h2⟩

theorem run_steps_error (nc : Coordinate) (b : Bool) (trc : Nat) :
    ∀ (steps : List TransitionStep) (st : ModState) (e : SliceError),
      (∀ s ∈ steps, s.aligned_features ≠ []) →
      run_steps nc b trc steps st = Except.error e →
      (e ≠ SliceError.noFeaturesInSlice
        ∧ ∃ s ∈ steps, step_class nc b s = some Category.OverlapsDownstream) := by
  intro steps
  induction steps with
  | nil => intro st e _ h; simp [run_steps] at h
  | cons s rest ih =>
      intro st e hne h
      simp only [run_steps] at h
      cases hm : modify_step nc b trc s st with
      | error e2 =>
          rw [hm] at h
          cases h
          obtain ⟨h1, h2⟩ :=
            modify_step_error nc b trc s st e (hne s (List.mem_cons_self s rest)) hm
          exact ⟨h1, s, List.mem_cons_self s rest, h2⟩
      | ok st2 =>
          rw [hm] at h
          obtain ⟨h1, x, hx, h2⟩ := ih st2 e (fun t ht => hne t (List.mem_cons_of_mem s ht)) h
          exact ⟨h1, x, List.mem_cons_of_mem s hx, h2⟩

theorem run_steps_ok_of_linked (nc : Coordinate) (b : Bool) (trc : Nat) :
    ∀ (steps : List TransitionStep) (st : ModState),
      (∀ s ∈ steps, s.aligned_features ≠ []) →
      (∀ s ∈ steps, step_pieces_linked s = true) →
      ∃ st', run_steps nc b trc steps st = Except.ok st' := by
  intro steps
  induction steps with
  | nil => exact fun st _ _ => ⟨st, rfl⟩
  | cons s rest ih =>
      intro st hne hlink
      obtain ⟨st2, h2⟩ := modify_step_ok_of_linked nc b trc s st
        (hne s (List.mem_cons_self s rest)) (hlink s (List.mem_cons_self s rest))
      obtain ⟨st3, h3⟩ := ih st2 (fun t ht => hne t (List.mem_cons_of_mem s ht))
        (fun t ht => hlink t (List.mem_cons_of_mem s ht))
      exact ⟨st3, by simp [run_steps, h2, h3]⟩

theorem access_list_cached (trc : Nat) (p : TranscribedPiece) :
    ∀ (n : Nat) (st : ModState), st.downstream_cache = some p →
      access_list trc n st = (List.replicate n p, st) := by
  intro n
  induction n with
  | zero => intro st h; simp [access_list]
  | succ m ih =>
      intro st h
      simp [access_list, downstream_piece_of_cached trc st p h, ih st h, List.replicate_succ]

/-! ### Sample data for counterexamples and witnesses -/

/-- The original (pre-slice) coordinate, chr1 `[0, 5000)`. -/
def sampleCoord : Coordinate := { id := 0, seqid := "chr1", start := 0, end_ := 5000 }

/-- The slice window of the spec scenarios, chr1 `[1000, 2000)`. -/
def sampleWindow : Coordinate := { id := 10, seqid := "chr1", start := 1000, end_ := 2000 }

/-- Sample feature on `sampleCoord`, linked to piece 1. -/
def sampleFeature (s e pos : Int) (b : Bool) (fid : Nat) : Feature :=
  { id := fid, start := s, end_ := e, position := pos, is_plus_strand := b,
    coordinate := sampleCoord, start_is_biological_start := true,
    end_is_biological_end := true, given_id := some "f", transcribed_piece := 1,
    pieces := [1] }

/-! ### Claim theorems -/

/-- C1 (counterexample): the six classifier predicates are not mutually
exclusive, so "exactly one of the six categories holds" is false: a plus
strand feature `[0, 3000)` spanning the whole window `[1000, 2000)` satisfies
both `overlaps_upstream` and `overlaps_downstream`. -/
theorem classifier_two_categories_hold_cx :
    FeatureVsCoords.overlaps_upstream { feature := sampleFeature 0 3000 0 true 1, slice_coordinates := sampleWindow, is_plus_strand := true } = true
    ∧ FeatureVsCoords.overlaps_downstream { feature := sampleFeature 0 3000 0 true 1, slice_coordinates := sampleWindow, is_plus_strand := true } = true := by
  exact ⟨rfl, rfl⟩

/-- C1 (amended): for every `(feature, window, strand)` input at least one of
the six classifier categories holds — the if/elif chain always selects a
branch, so the trimmer's final catch-all `AssertionError` is unreachable —
but the predicates do not partition the space: both overlap categories can
hold at once and the chain resolves the tie by branch order. -/
theorem classifier_exhaustive (p : FeatureVsCoords) : classify p ≠ none := by
  have h := classify_total p
  cases hc : classify p
  · rw [hc] at h
    simp at h
  · simp

/-- C5 (counterexample): the Upstream/Downstream flip is not an equivalence:
for raw coordinates `start = 0, end = 1500` against window `[1000, 2000)` the
classifier is Downstream on the minus strand but on the plus strand it is
OverlapsUpstream, not Upstream. -/
theorem strand_flip_not_equivalence_cx :
    FeatureVsCoords.is_downstream { feature := sampleFeature 0 1500 0 true 71, slice_coordinates := sampleWindow, is_plus_strand := false } = true
    ∧ FeatureVsCoords.is_upstream { feature := sampleFeature 0 1500 0 true 71, slice_coordinates := sampleWindow, is_plus_strand := true } = false
    ∧ FeatureVsCoords.overlaps_upstream { feature := sampleFeature 0 1500 0 true 71, slice_coordinates := sampleWindow, is_plus_strand := true } = true := by
  exact ⟨rfl, rfl, rfl⟩

/-- C5 (amended): for a feature with `start < end`, flipping the strand flag
sends Upstream-on-plus to Downstream-on-minus and Downstream-on-plus to
Upstream-on-minus (so the spec scenario holds); the converse directions fail
in general (see the counterexample). -/
theorem strand_flip_up_down (f : Feature) (c : Coordinate) (h : f.start < f.end_) :
    (FeatureVsCoords.is_upstream { feature := f, slice_coordinates := c, is_plus_strand := true } = true →
      FeatureVsCoords.is_downstream { feature := f, slice_coordinates := c, is_plus_strand := false } = true)
    ∧ (FeatureVsCoords.is_downstream { feature := f, slice_coordinates := c, is_plus_strand := true } = true →
      FeatureVsCoords.is_upstream { feature := f, slice_coordinates := c, is_plus_strand := false } = true) := by
  refine ⟨fun h1 => ?_, fun h1 => ?_⟩ <;>
  · simp [FeatureVsCoords.is_upstream, FeatureVsCoords.is_downstream,
      FeatureVsCoords.is_lower, FeatureVsCoords.is_higher,
      FeatureVsCoords.feature_py_start, FeatureVsCoords.feature_py_end] at h1 ⊢
    omega

/-- C5 (witness): spec scenario, feature `[0, 500)` against `[1000, 2000)`:
plus strand Upstream, and by the amended claim minus strand Downstream. -/
theorem strand_flip_up_down_witness :
    (sampleFeature 0 500 0 true 72).start < (sampleFeature 0 500 0 true 72).end_
    ∧ ((FeatureVsCoords.is_upstream { feature := sampleFeature 0 500 0 true 72, slice_coordinates := sampleWindow, is_plus_strand := true } = true →
        FeatureVsCoords.is_downstream { feature := sampleFeature 0 500 0 true 72, slice_coordinates := sampleWindow, is_plus_strand := false } = true)
      ∧ (FeatureVsCoords.is_downstream { feature := sampleFeature 0 500 0 true 72, slice_coordinates := sampleWindow, is_plus_strand := true } = true →
        FeatureVsCoords.is_upstream { feature := sampleFeature 0 500 0 true 72, slice_coordinates := sampleWindow, is_plus_strand := false } = true)) :=
  ⟨by decide, strand_flip_up_down (sampleFeature 0 500 0 true 72) sampleWindow (by decide)⟩

/-- C6 (counterexample): the claimed iff fails for a degenerate feature: the
empty plus-strand feature with `start = end = 2000` against `[1000, 2000)`
has `effective_start ≥ window.start` and `effective_end ≤ window.end`, yet
`is_contained` is false. -/
theorem contained_degenerate_cx :
    FeatureVsCoords.is_contained { feature := sampleFeature 2000 2000 2000 true 73, slice_coordinates := sampleWindow, is_plus_strand := true } = false
    ∧ sampleWindow.start ≤ FeatureVsCoords.feature_py_start { feature := sampleFeature 2000 2000 2000 true 73, slice_coordinates := sampleWindow, is_plus_strand := true }
    ∧ FeatureVsCoords.feature_py_end { feature := sampleFeature 2000 2000 2000 true 73, slice_coordinates := sampleWindow, is_plus_strand := true } ≤ sampleWindow.end_ := by
  exact ⟨rfl, by decide, by decide⟩

/-- C6 (amended): for non-degenerate inputs (`effective_start < effective_end`)
`is_contained` is true iff `effective_start ≥ window.start` and
`effective_end ≤ window.end`; the code additionally requires
`effective_start < window.end` and `effective_end > window.start`, which only
matters for empty features (see the counterexample). -/
theorem is_contained_iff (p : FeatureVsCoords)
    (h : p.feature_py_start < p.feature_py_end) :
    p.is_contained = true ↔
      (p.slice_coordinates.start ≤ p.feature_py_start
        ∧ p.feature_py_end ≤ p.slice_coordinates.end_) := by
  simp only [FeatureVsCoords.is_contained, Bool.and_eq_true, decide_eq_true_eq]
  omega

/-- C6 (witness): feature `[1200, 1500)` against `[1000, 2000)`, plus strand. -/
theorem is_contained_iff_witness :
    FeatureVsCoords.feature_py_start { feature := sampleFeature 1200 1500 1200 true 74, slice_coordinates := sampleWindow, is_plus_strand := true } < FeatureVsCoords.feature_py_end { feature := sampleFeature 1200 1500 1200 true 74, slice_coordinates := sampleWindow, is_plus_strand := true }
    ∧ (FeatureVsCoords.is_contained { feature := sampleFeature 1200 1500 1200 true 74, slice_coordinates := sampleWindow, is_plus_strand := true } = true ↔
        (sampleWindow.start ≤ FeatureVsCoords.feature_py_start { feature := sampleFeature 1200 1500 1200 true 74, slice_coordinates := sampleWindow, is_plus_strand := true }
          ∧ FeatureVsCoords.feature_py_end { feature := sampleFeature 1200 1500 1200 true 74, slice_coordinates := sampleWindow, is_plus_strand := true } ≤ sampleWindow.end_)) :=
  ⟨by decide, is_contained_iff { feature := sampleFeature 1200 1500 1200 true 74, slice_coordinates := sampleWindow, is_plus_strand := true } (by decide)⟩

/-- C7 (counterexample): the re-check tests the closed interval
`[start, end]` on the plus strand, not `[start, end)`: a plus-strand feature
at position exactly `window.end = 2000` is not inside `[1000, 2000)`, yet the
re-verification assertion fails (the run aborts) instead of resolving. -/
theorem reverify_no_overlap_cx :
    reverify_no_overlap [[sampleFeature 0 0 2000 true 75]] sampleWindow true = false
    ∧ ¬ (sampleWindow.start ≤ (sampleFeature 0 0 2000 true 75).position
          ∧ (sampleFeature 0 0 2000 true 75).position < sampleWindow.end_)
    ∧ (sampleFeature 0 0 2000 true 75).is_plus_strand = true := by
  exact ⟨rfl, by decide, rfl⟩

/-- C7 (amended): after `NoFeaturesInSliceError` the caller re-verifies every
feature of the transcript on the matching strand; the error resolves without
aborting iff no matching-strand feature has its position in the closed
interval `[start, end]` (plus strand) resp. `[start - 1, end - 1]` (minus
strand) — one position wider than the window `[start, end)` at its
strand-facing edge. -/
theorem reverify_no_overlap_iff (pf : List (List Feature)) (c : Coordinate) (b : Bool) :
    reverify_no_overlap pf c b = true ↔
      ∀ fs ∈ pf, ∀ f ∈ fs, f.is_plus_strand = b →
        (if b then ¬ (c.start ≤ f.position ∧ f.position ≤ c.end_)
         else ¬ (c.start - 1 ≤ f.position ∧ f.position ≤ c.end_ - 1)) := by
  simp only [reverify_no_overlap, List.all_eq_true]
  constructor
  · intro h fs hfs f hf hstrand
    have h2 := h fs hfs f hf
    rw [hstrand] at h2
    cases b <;> simp_all <;> omega
  · intro h fs hfs f hf
    by_cases hstrand : f.is_plus_strand = b
    · have h2 := h fs hfs f hf hstrand
      rw [hstrand]
      cases b <;> simp_all <;> omega
    · have hbeq : (b == f.is_plus_strand) = false := by
        cases b <;> cases hb2 : f.is_plus_strand <;> simp_all
      simp [hbeq]

/-- C8 (counterexample): the spatial index is keyed only on the feature's
`position`: a plus-strand feature with extent `[500, 1500)` (position 500)
intersects the window `[1000, 2000)` on the right strand and seqid, yet the
slice query returns the empty list. -/
theorem get_features_misses_extent_cx :
    get_features_from_slice [("chr1", [(500, sampleFeature 500 1500 500 true 76)])] "chr1" 1000 2000 true = Except.ok []
    ∧ (sampleFeature 500 1500 500 true 76).start < 2000
    ∧ (1000 : Int) < (sampleFeature 500 1500 500 true 76).end_
    ∧ (sampleFeature 500 1500 500 true 76).is_plus_strand = true
    ∧ (sampleFeature 500 1500 500 true 76).coordinate.seqid = "chr1" := by
  exact ⟨rfl, by decide, by decide, rfl, rfl⟩

/-- C8 (amended): the slice query returns exactly the features of the seqid
bucket whose index key `p` (the feature position, one entry `[p, p+1)` per
feature) overlaps `[start, end)` — `p < end` and `p + 1 > start` — and whose
strand matches; features whose extent intersects the window but whose keyed
position lies outside it are not returned (see the counterexample). -/
theorem get_features_from_slice_mem (trees : Trees) (seqid : String)
    (start end_ : Int) (b : Bool) (bucket : List (Int × Feature)) (f : Feature)
    (h0 : trees ≠ []) (h1 : lookupTree seqid trees = some bucket) :
    ∃ res, get_features_from_slice trees seqid start end_ b = Except.ok res
      ∧ (f ∈ res ↔ ∃ p : Int, (p, f) ∈ bucket ∧ p < end_ ∧ start < p + 1
            ∧ f.is_plus_strand = b) := by
  have hres : get_features_from_slice trees seqid start end_ b
      = Except.ok ((bucket.filter (fun e => decide (e.1 < end_) && decide (start < e.1 + 1) && (e.2.is_plus_strand == b))).map (fun e => e.2)) := by
    simp [get_features_from_slice, h0, h1]
  refine ⟨_, hres, ?_⟩
  simp only [List.mem_map, List.mem_filter]
  constructor
  · rintro ⟨⟨p, g⟩, ⟨hmem, hpred⟩, rfl⟩
    simp only [Bool.and_eq_true, decide_eq_true_eq, beq_iff_eq] at hpred
    exact ⟨p, hmem, hpred.1.1, hpred.1.2, hpred.2⟩
  · rintro ⟨p, hmem, h2, h3, h4⟩
    exact ⟨(p, f), ⟨hmem, by simp [h2, h3, h4]⟩, rfl⟩

/-- C8 (witness): a bucket with one in-window feature at key 1500. -/
theorem get_features_from_slice_mem_witness :
    ([("chr1", [((1500 : Int), sampleFeature 1500 1600 1500 true 77)])] : Trees) ≠ []
    ∧ lookupTree "chr1" [("chr1", [((1500 : Int), sampleFeature 1500 1600 1500 true 77)])] = some [((1500 : Int), sampleFeature 1500 1600 1500 true 77)]
    ∧ (∃ res, get_features_from_slice [("chr1", [((1500 : Int), sampleFeature 1500 1600 1500 true 77)])] "chr1" 1000 2000 true = Except.ok res
        ∧ (sampleFeature 1500 1600 1500 true 77 ∈ res ↔
            ∃ p : Int, (p, sampleFeature 1500 1600 1500 true 77) ∈ [((1500 : Int), sampleFeature 1500 1600 1500 true 77)]
              ∧ p < 2000 ∧ 1000 < p + 1
              ∧ (sampleFeature 1500 1600 1500 true 77).is_plus_strand = true)) :=
  ⟨by decide, by decide,
   get_features_from_slice_mem [("chr1", [((1500 : Int), sampleFeature 1500 1600 1500 true 77)])] "chr1" 1000 2000 true [((1500 : Int), sampleFeature 1500 1600 1500 true 77)] (sampleFeature 1500 1600 1500 true 77) (by decide) (by decide)⟩

/-- C10: `get_features_from_slice` raises `ValueError` exactly on the fully
empty index dictionary; a non-empty index lacking the requested seqid instead
yields the empty feature list (the `KeyError` is caught and logged). -/
theorem get_features_empty_index_vs_missing_seqid (trees : Trees) (seqid : String)
    (start end_ : Int) (b : Bool) :
    (trees = [] →
      get_features_from_slice trees seqid start end_ b = Except.error SliceError.valueError)
    ∧ (trees ≠ [] → lookupTree seqid trees = none →
      get_features_from_slice trees seqid start end_ b = Except.ok []) := by
  constructor
  · intro h
    simp [get_features_from_slice, h]
  · intro h hl
    simp [get_features_from_slice, h, hl]

/-- C10 (witness): empty index errors; index with only another seqid
returns the empty list. -/
theorem get_features_empty_index_vs_missing_seqid_witness :
    get_features_from_slice [] "chr1" 0 10 true = Except.error SliceError.valueError
    ∧ get_features_from_slice [("chrX", [])] "chr1" 0 10 true = Except.ok [] :=
  ⟨(get_features_empty_index_vs_missing_seqid [] "chr1" 0 10 true).1 rfl,
   (get_features_empty_index_vs_missing_seqid [("chrX", [])] "chr1" 0 10 true).2 (by decide) (by decide)⟩

/-- C2: `set_status_downstream_border` cuts at `window.end` (plus) resp.
`window.start - 1` (minus); creates the downstream feature as a clone of the
template with `start = cut`, `coordinate = old_coords` (the pre-slice
coordinate), biological-start flag false and `given_id` cleared; truncates
the template in place to `end = cut` with `end_is_biological_end = false`;
swaps the new feature from the old piece onto the passed new piece (which in
`modify4new_slice` is `downstream_piece`, a piece freshly created for the
same Transcribed, as the final conjunct states); and inserts the new feature
into the interval trees. -/
theorem set_status_downstream_border_spec (new_coords old_coords : Coordinate)
    (b : Bool) (tf : Feature) (np op : TranscribedPiece) (trees : Trees) (fid : Nat)
    (h : op.id ∈ tf.pieces) :
    ∃ down tf2 trees2,
      set_status_downstream_border new_coords old_coords b tf np op trees fid
        = Except.ok (down, tf2, trees2)
      ∧ down.start = (if b then new_coords.end_ else new_coords.start - 1)
      ∧ down.coordinate = old_coords
      ∧ down.start_is_biological_start = false
      ∧ down.end_ = tf.end_
      ∧ down.position = tf.position
      ∧ down.is_plus_strand = tf.is_plus_strand
      ∧ down.given_id = none
      ∧ down.id = fid
      ∧ tf2.end_ = (if b then new_coords.end_ else new_coords.start - 1)
      ∧ tf2.end_is_biological_end = false
      ∧ tf2.start = tf.start
      ∧ tf2.id = tf.id
      ∧ down.pieces = tf.pieces.erase op.id ++ [np.id]
      ∧ down.transcribed_piece = np.id
      ∧ trees2 = load_to_intervaltree down trees
      ∧ trees_mem trees2 down.coordinate.seqid (down.position, down) = true
      ∧ (∀ (trc : Nat) (st : ModState), st.downstream_cache = none →
          ((downstream_piece trc st).1.transcribed = trc
            ∧ (downstream_piece trc st).2.created_pieces
                = st.created_pieces ++ [(downstream_piece trc st).1])) := by
  refine ⟨
    { tf with id := fid, start := if b then new_coords.end_ else new_coords.start - 1, given_id := none, coordinate := old_coords, start_is_biological_start := false, pieces := tf.pieces.erase op.id ++ [np.id], transcribed_piece := np.id },
    { tf with end_ := if b then new_coords.end_ else new_coords.start - 1, end_is_biological_end := false },
    _,
    ?_, rfl, rfl, rfl, rfl, rfl, rfl, rfl, rfl, rfl, rfl, rfl, rfl, rfl, rfl, rfl,
    ?_,
    fun trc st hc => ⟨(downstream_piece_fresh trc st hc).1, (downstream_piece_fresh trc st hc).2.1⟩⟩
  · simp [set_status_downstream_border, h]
  · exact mem_load_to_intervaltree _ trees

/-- C2 (witness): the spec scenario split: template `[1500, 2500)` against
window `[1000, 2000)`, plus strand, old piece 1, new piece 9. -/
theorem set_status_downstream_border_spec_witness :
    ({ id := 1, transcribed := 0 } : TranscribedPiece).id ∈ (sampleFeature 1500 2500 1500 true 21).pieces
    ∧ (∃ down tf2 trees2,
      set_status_downstream_border sampleWindow sampleCoord true (sampleFeature 1500 2500 1500 true 21) { id := 9, transcribed := 0 } { id := 1, transcribed := 0 } [] 99
        = Except.ok (down, tf2, trees2)
      ∧ down.start = (if true then sampleWindow.end_ else sampleWindow.start - 1)
      ∧ down.coordinate = sampleCoord
      ∧ down.start_is_biological_start = false
      ∧ down.end_ = (sampleFeature 1500 2500 1500 true 21).end_
      ∧ down.position = (sampleFeature 1500 2500 1500 true 21).position
      ∧ down.is_plus_strand = (sampleFeature 1500 2500 1500 true 21).is_plus_strand
      ∧ down.given_id = none
      ∧ down.id = 99
      ∧ tf2.end_ = (if true then sampleWindow.end_ else sampleWindow.start - 1)
      ∧ tf2.end_is_biological_end = false
      ∧ tf2.start = (sampleFeature 1500 2500 1500 true 21).start
      ∧ tf2.id = (sampleFeature 1500 2500 1500 true 21).id
      ∧ down.pieces = (sampleFeature 1500 2500 1500 true 21).pieces.erase ({ id := 1, transcribed := 0 } : TranscribedPiece).id ++ [({ id := 9, transcribed := 0 } : TranscribedPiece).id]
      ∧ down.transcribed_piece = ({ id := 9, transcribed := 0 } : TranscribedPiece).id
      ∧ trees2 = load_to_intervaltree down []
      ∧ trees_mem trees2 down.coordinate.seqid (down.position, down) = true
      ∧ (∀ (trc : Nat) (st : ModState), st.downstream_cache = none →
          ((downstream_piece trc st).1.transcribed = trc
            ∧ (downstream_piece trc st).2.created_pieces
                = st.created_pieces ++ [(downstream_piece trc st).1]))) :=
  ⟨by decide,
   set_status_downstream_border_spec sampleWindow sampleCoord true (sampleFeature 1500 2500 1500 true 21) { id := 9, transcribed := 0 } { id := 1, transcribed := 0 } [] 99 (by decide)⟩

/-- C3: `modify4new_slice` raises `NoFeaturesInSliceError` if and only if no
step of the 5'-to-3' walk classified as Contained or OverlapsDownstream
(`seen_one_overlap` stayed false through the end of the chain); the
hypothesis reflects the transition generator's guarantee that every yielded
aligned-feature group is non-empty. -/
theorem modify4new_slice_noFeatures_iff (nc : Coordinate) (b : Bool) (trc : Nat)
    (steps : List TransitionStep) (st : ModState)
    (hne : ∀ s ∈ steps, s.aligned_features ≠ []) :
    modify4new_slice nc b trc steps st = Except.error SliceError.noFeaturesInSlice
      ↔ ∀ s ∈ steps, (step_class nc b s ≠ some Category.Contained
          ∧ step_class nc b s ≠ some Category.OverlapsDownstream) := by
  unfold modify4new_slice
  cases hr : run_steps nc b trc steps { st with seen_one_overlap := false, piece_at_border := none } with
  | error e =>
      obtain ⟨h1, x, hx, h2⟩ := run_steps_error nc b trc steps _ e hne hr
      constructor
      · intro hcontra
        simp only [Except.error.injEq] at hcontra
        exact absurd hcontra h1
      · intro hall
        exact absurd h2 (hall x hx).2
  | ok st1 =>
      have hseen := run_steps_ok_seen nc b trc steps _ st1 hr
      cases hb1 : st1.seen_one_overlap with
      | true =>
          simp only [hb1, if_true]
          constructor
          · intro hcontra
            exact absurd hcontra (by simp)
          · intro hall
            obtain ⟨x, hx, hc2⟩ := (hseen.mp hb1).resolve_left (by simp)
            rcases hc2 with hc2 | hc2
            · exact absurd hc2 (hall x hx).1
            · exact absurd hc2 (hall x hx).2
      | false =>
          simp only [hb1, Bool.false_eq_true, if_false]
          have hnex : ¬ ∃ s ∈ steps,
              (step_class nc b s = some Category.Contained
                ∨ step_class nc b s = some Category.OverlapsDownstream) := by
            intro hex
            have hst1 : st1.seen_one_overlap = true := hseen.mpr (Or.inr hex)
            rw [hb1] at hst1
            exact absurd hst1 (by simp)
          constructor
          · intro _ s hs
            constructor
            · intro hc2
              exact hnex ⟨s, hs, Or.inl hc2⟩
            · intro hc2
              exact hnex ⟨s, hs, Or.inr hc2⟩
          · intro _
            trivial

/-- C3 (witness): a walk consisting of one Upstream step (feature `[0, 500)`
before window `[1000, 2000)`) raises `NoFeaturesInSliceError`. -/
theorem modify4new_slice_noFeatures_iff_witness :
    modify4new_slice sampleWindow true 0 [{ aligned_features := [sampleFeature 0 500 0 true 61], piece := { id := 1, transcribed := 0 } }] ModState.init
      = Except.error SliceError.noFeaturesInSlice :=
  (modify4new_slice_noFeatures_iff sampleWindow true 0 [{ aligned_features := [sampleFeature 0 500 0 true 61], piece := { id := 1, transcribed := 0 } }] ModState.init (by decide)).mpr (by decide)

/-- C4 (counterexample): a walk with TWO OverlapsDownstream-classified steps
(features `[1500, 2500)` and `[1900, 2600)` against window `[1000, 2000)`)
does not fail: it completes successfully, performing two border splits onto
one downstream piece — there is no invariant-violation check for a second
split. -/
theorem second_overlap_no_failure_cx :
    step_class sampleWindow true { aligned_features := [sampleFeature 1500 2500 1500 true 21], piece := { id := 1, transcribed := 0 } } = some Category.OverlapsDownstream
    ∧ step_class sampleWindow true { aligned_features := [sampleFeature 1900 2600 1900 true 22], piece := { id := 1, transcribed := 0 } } = some Category.OverlapsDownstream
    ∧ isOkE (modify4new_slice sampleWindow true 0 [{ aligned_features := [sampleFeature 1500 2500 1500 true 21], piece := { id := 1, transcribed := 0 } }, { aligned_features := [sampleFeature 1900 2600 1900 true 22], piece := { id := 1, transcribed := 0 } }] ModState.init) = true
    ∧ splitCount (modify4new_slice sampleWindow true 0 [{ aligned_features := [sampleFeature 1500 2500 1500 true 21], piece := { id := 1, transcribed := 0 } }, { aligned_features := [sampleFeature 1900 2600 1900 true 22], piece := { id := 1, transcribed := 0 } }] ModState.init) = 2
    ∧ createdCount (modify4new_slice sampleWindow true 0 [{ aligned_features := [sampleFeature 1500 2500 1500 true 21], piece := { id := 1, transcribed := 0 } }, { aligned_features := [sampleFeature 1900 2600 1900 true 22], piece := { id := 1, transcribed := 0 } }] ModState.init) = 1 := by
  exact ⟨rfl, rfl, rfl, rfl, rfl⟩

/-- C4 (amended): a second OverlapsDownstream step for the same transcript in
the same slice is NOT a fatal invariant violation: the walk simply performs
another split (reusing the one lazily created downstream piece).  Under the
transition generator's invariants — non-empty aligned groups whose features
are linked to their border piece — `modify4new_slice` can only succeed or
raise `NoFeaturesInSliceError`, never an invariant-violation error, no matter
how many OverlapsDownstream steps occur. -/
theorem modify4new_slice_no_invariant_violation (nc : Coordinate) (b : Bool)
    (trc : Nat) (steps : List TransitionStep) (st : ModState)
    (hne : ∀ s ∈ steps, s.aligned_features ≠ [])
    (hlink : ∀ s ∈ steps, step_pieces_linked s = true) :
    (∃ st', modify4new_slice nc b trc steps st = Except.ok st')
      ∨ modify4new_slice nc b trc steps st = Except.error SliceError.noFeaturesInSlice := by
  unfold modify4new_slice
  obtain ⟨st1, h1⟩ := run_steps_ok_of_linked nc b trc steps
    { st with seen_one_overlap := false, piece_at_border := none } hne hlink
  rw [h1]
  cases hb1 : st1.seen_one_overlap with
  | true =>
      left
      exact ⟨st1, by simp [hb1]⟩
  | false =>
      right
      simp [hb1]

/-- C4 (witness): the two-OverlapsDownstream walk of the counterexample
satisfies the generator invariants, and the amended claim applies to it. -/
theorem modify4new_slice_no_invariant_violation_witness :
    (∀ s ∈ [{ aligned_features := [sampleFeature 1500 2500 1500 true 21], piece := { id := 1, transcribed := 0 } }, { aligned_features := [sampleFeature 1900 2600 1900 true 22], piece := { id := 1, transcribed := 0 } }], TransitionStep.aligned_features s ≠ [])
    ∧ (∀ s ∈ [{ aligned_features := [sampleFeature 1500 2500 1500 true 21], piece := { id := 1, transcribed := 0 } }, { aligned_features := [sampleFeature 1900 2600 1900 true 22], piece := { id := 1, transcribed := 0 } }], step_pieces_linked s = true)
    ∧ ((∃ st', modify4new_slice sampleWindow true 0 [{ aligned_features := [sampleFeature 1500 2500 1500 true 21], piece := { id := 1, transcribed := 0 } }, { aligned_features := [sampleFeature 1900 2600 1900 true 22], piece := { id := 1, transcribed := 0 } }] ModState.init = Except.ok st')
      ∨ modify4new_slice sampleWindow true 0 [{ aligned_features := [sampleFeature 1500 2500 1500 true 21], piece := { id := 1, transcribed := 0 } }, { aligned_features := [sampleFeature 1900 2600 1900 true 22], piece := { id := 1, transcribed := 0 } }] ModState.init = Except.error SliceError.noFeaturesInSlice) :=
  ⟨by decide, by decide,
   modify4new_slice_no_invariant_violation sampleWindow true 0 [{ aligned_features := [sampleFeature 1500 2500 1500 true 21], piece := { id := 1, transcribed := 0 } }, { aligned_features := [sampleFeature 1900 2600 1900 true 22], piece := { id := 1, transcribed := 0 } }] ModState.init (by decide) (by decide)⟩

/-- C9: within one trimmer run the downstream piece is created lazily exactly
once: starting from an empty cache, `n` accesses of `downstream_piece` all
return the same piece, and exactly that one piece is appended to the created
pieces (none at all for `n = 0`). -/
theorem downstream_piece_created_once (trc : Nat) (st : ModState) (n : Nat)
    (h : st.downstream_cache = none) :
    (access_list trc n st).1 = List.replicate n (downstream_piece trc st).1
    ∧ (access_list trc n st).2.created_pieces
        = st.created_pieces ++ (if n = 0 then [] else [(downstream_piece trc st).1]) := by
  cases n with
  | zero => simp [access_list]
  | succ m =>
      obtain ⟨h1, h2, h3⟩ := downstream_piece_fresh trc st h
      have hc := access_list_cached trc (downstream_piece trc st).1 m (downstream_piece trc st).2 h3
      constructor
      · simp [access_list, hc, List.replicate_succ]
      · simp [access_list, hc, h2]

/-- C9 (witness): three accesses from a fresh trimmer state return one and
the same piece and create exactly one piece. -/
theorem downstream_piece_created_once_witness :
    ModState.init.downstream_cache = none
    ∧ ((access_list 0 3 ModState.init).1 = List.replicate 3 (downstream_piece 0 ModState.init).1
      ∧ (access_list 0 3 ModState.init).2.created_pieces
          = ModState.init.created_pieces ++ (if (3 : Nat) = 0 then [] else [(downstream_piece 0 ModState.init).1])) :=
  ⟨rfl, downstream_piece_created_once 0 ModState.init 3 rfl⟩
